import Mathlib

/-!
Verification of the SocraticBot answer-evaluation core (`src/core.py`).

The embedding models the `LearningProgress` dataclass and the
`ResponseGenerator` methods `generate_response`, `_handle_correct_answer`,
`_get_dynamic_prompt_template`, `_generate_llm_response`, `_format_response`
and `_get_encouragement`.  The external services (Ollama embeddings +
cosine similarity, the Chroma retriever, and the ChatOllama LLM) are
opaque collaborators; each is modelled as an `Option`-returning function,
where `none` stands for the Python call raising an exception.  Python's
in-place mutation of `progress` is modelled by explicit state passing:
each operation returns the response text together with the updated
`LearningProgress`.
-/

/-- The `LearningProgress` dataclass of `src/core.py` (fields
`completed : bool`, `attempts : int`, `hints_given : list[str]`). -/
structure LearningProgress where
  completed : Bool
  attempts : Nat
  hints_given : List String
deriving Repr, DecidableEq

/-- The dataclass constructor together with `__post_init__`: the Python
defaults are `completed = False`, `attempts = 0`, `hints_given = None`,
and `__post_init__` replaces a `None` value of `hints_given` by a fresh
empty list.  The optional `hints_given` argument models `None` as
`Option.none`. -/
def mkLearningProgress (completed : Bool) (attempts : Nat)
    (hints_given : Option (List String)) : LearningProgress :=
  { completed := completed
    attempts := attempts
    hints_given :=
      match hints_given with
      | none => []
      | some l => l }

/-- `LearningProgress()` with every argument left at its Python default. -/
def LearningProgress.default : LearningProgress :=
  mkLearningProgress false 0 none

/-- The external collaborators of `ResponseGenerator`, one field per
Python call that can raise:
* `calcSimilarity` abstracts `_calculate_similarity` (two
  `OllamaEmbeddings.embed_query` calls plus `util.cos_sim`); `none`
  models the call raising.
* `getRelevantDocuments` abstracts
  `vector_db.as_retriever(...).get_relevant_documents(question)`,
  returning the list of page contents; `none` models the call raising.
* `llmGenerate` abstracts `self.llm.generate([messages])` followed by
  `response.generations[0][0].text`; `none` models the call raising. -/
structure Oracles where
  calcSimilarity : String → String → Option ℚ
  getRelevantDocuments : String → Option (List String)
  llmGenerate : String → Option String

/-- `self.similarity_threshold = 0.85` from `ResponseGenerator.__init__`,
written as the rational 85/100 via `mkRat` so that comparisons against it
are kernel-computable. -/
def similarity_threshold : ℚ := mkRat 85 100

/-- `_get_enhanced_context`: retrieve the relevant documents and join the
first three page contents with a newline. -/
def get_enhanced_context (O : Oracles) (question : String) : Option String :=
  match O.getRelevantDocuments question with
  | none => none
  | some docs => some (String.intercalate "\n" (docs.take 3))

/-- The `progress.attempts == 0` template of
`_get_dynamic_prompt_template`. -/
def firstAttemptTemplate : String :=
  "\n            You are an encouraging educational AI assistant. The user is just starting to work on this problem. \n\n            Context: \x7bcontext\x7d\n\n            Question: \x7bquestion\x7d\n            User\x27s First Attempt: \x7buser_answer\x7d\n\n            Provide gentle guidance and a starting point for thinking about the problem. \n            Focus on understanding the question and identifying key concepts.\n            "

/-- The `progress.attempts < 3` template of
`_get_dynamic_prompt_template`. -/
def progressTemplate : String :=
  "\n            You are an educational AI assistant helping a student who is making progress.\n            \n\n            Context: \x7bcontext\x7d\n            Previous Attempts: \x7battempts\x7d\n\n            Question: \x7bquestion\x7d\n            Latest Answer: \x7buser_answer\x7d\n\n            Provide more specific hints based on their answer. Point out what they\x27ve understood correctly\n            and gently guide them toward areas they might have missed.  \n            "

/-- The fallback (`attempts >= 3`) template of
`_get_dynamic_prompt_template`. -/
def strugglingTemplate : String :=
  "\n            You are an educational AI assistant helping a student who might be struggling.\n\n            Context: \x7bcontext\x7d\n            Attempts Made: \x7battempts\x7d\n\n            Question: \x7bquestion\x7d\n            Latest Answer: \x7buser_answer\x7d\n\n            Break down the problem into smaller steps. Provide more structured guidance\n            while still encouraging independent thinking. Consider suggesting different\n            approaches or ways of thinking about the problem. \n            "

/-- `_get_dynamic_prompt_template`: select a template from
`progress.attempts`. -/
def get_dynamic_prompt_template (progress : LearningProgress) : String :=
  if progress.attempts = 0 then
    firstAttemptTemplate
  else if progress.attempts < 3 then
    progressTemplate
  else
    strugglingTemplate

/-- `ChatPromptTemplate.from_template(template)` followed by
`format_prompt(context=..., question=..., user_answer=...,
attempts=progress.attempts, previous_hints=", ".join(progress.hints_given))`:
substitute each placeholder occurring in the template by its value
(placeholders absent from a template are simply ignored, as in Python
formatting with unused keyword arguments). -/
def formatPrompt (template context question user_answer : String)
    (attempts : Nat) (previous_hints : String) : String :=
  ((((template.replace "\x7bcontext\x7d" context).replace
      "\x7bquestion\x7d" question).replace
      "\x7buser_answer\x7d" user_answer).replace
      "\x7battempts\x7d" (toString attempts)).replace
      "\x7bprevious_hints\x7d" previous_hints

/-- `_get_encouragement`: the dictionary lookup with default
"Keep persevering! ...". -/
def get_encouragement (attempts : Nat) : String :=
  match attempts with
  | 0 => "Let\x27s start exploring this together!"
  | 1 => "You\x27re making progress! Keep thinking about it."
  | 2 => "You\x27re getting closer! Consider these points:"
  | 3 => "Don\x27t give up! Here\x27s a different way to think about it:"
  | 4 => "You\x27re putting in great effort! Let\x27s break this down further:"
  | _ + 5 => "Keep persevering! Here\x27s some guidance:"

/-- `_format_response`: prefix the hint with the encouragement selected
from `progress.attempts`. -/
def format_response (hint : String) (progress : LearningProgress) : String :=
  get_encouragement progress.attempts ++ "\n\n" ++ hint

/-- `_handle_correct_answer`: on the first success set `completed`,
congratulate (branching on `attempts == 0`), otherwise return `"."`.
Returns the response text with the updated progress. -/
def handle_correct_answer (progress : LearningProgress) :
    String × LearningProgress :=
  if !progress.completed then
    let attempts_feedback :=
      if progress.attempts = 0 then
        "Excellent work! You found the solution on your first try!"
      else
        "Well done! You persevered and found the correct answer after " ++
          toString (progress.attempts + 1) ++ " attempts."
    ("🎉 Congratulations! " ++ attempts_feedback ++
        " Your understanding has grown through this process.",
      { progress with completed := true })
  else
    (".", progress)

/-- Python's `str.strip()`: drop whitespace from both ends of the string.
Implemented by structural recursion over the character list so that it is
kernel-computable (Lean's `String.trim` is byte-position based and does
not reduce in the kernel). -/
def pyStrip (s : String) : String :=
  ⟨((s.data.dropWhile Char.isWhitespace).reverse.dropWhile
      Char.isWhitespace).reverse⟩

/-- The fixed apology of `_generate_llm_response`'s `except` branch. -/
def feedbackApology : String :=
  "I encountered an issue generating feedback. Please try again or rephrase your answer."

/-- The fixed fallback of `generate_response`'s top-level `except`. -/
def processingFallback : String :=
  "I encountered an issue processing your answer. Please try again."

/-- `_generate_llm_response`: build the prompt, call the LLM, strip the
hint, append it to `hints_given` when it is not already present, and
format the response.  The inner `try/except` returns the fixed apology
on LLM failure, without touching the progress record. -/
def generate_llm_response (O : Oracles) (template context question
    user_answer correct_answer : String) (progress : LearningProgress) :
    String × LearningProgress :=
  let prompt := formatPrompt template context question user_answer
    progress.attempts (String.intercalate ", " progress.hints_given)
  match O.llmGenerate prompt with
  | none => (feedbackApology, progress)
  | some txt =>
    let hint := pyStrip txt
    let progress' :=
      if hint ∈ progress.hints_given then progress
      else { progress with hints_given := progress.hints_given ++ [hint] }
    (format_response hint progress', progress')

/-- `generate_response`: the top-level evaluation flow.  A `none` from
the similarity oracle or the retriever models an exception reaching the
top-level `except`, which returns the fixed fallback and leaves the
progress unchanged.  Note that `progress.attempts += 1` runs on every
incorrect-answer path on which no exception escapes
`_generate_llm_response` — including the path on which the LLM call
failed and the apology string was returned. -/
def generate_response (O : Oracles) (question correct_answer
    user_answer : String) (progress : LearningProgress) :
    String × LearningProgress :=
  match O.calcSimilarity correct_answer user_answer with
  | none => (processingFallback, progress)
  | some similarity =>
    if similarity > similarity_threshold then
      handle_correct_answer progress
    else
      match get_enhanced_context O question with
      | none => (processingFallback, progress)
      | some context =>
        let template := get_dynamic_prompt_template progress
        let r := generate_llm_response O template context question
          user_answer correct_answer progress
        (r.1, { r.2 with attempts := r.2.attempts + 1 })

/-- The spec's `recordAttempt(hint)` as the code implements it: the
combined effect on the progress record of one successful
incorrect-answer evaluation — the duplicate-suppressing append of
`_generate_llm_response` (lines 195–196) followed by the unconditional
`progress.attempts += 1` of `generate_response` (line 100). -/
def recordAttempt (progress : LearningProgress) (hint : String) :
    LearningProgress :=
  let progress' :=
    if hint ∈ progress.hints_given then progress
    else { progress with hints_given := progress.hints_given ++ [hint] }
  { progress' with attempts := progress'.attempts + 1 }

/-! ## Concrete fixtures used by witnesses and counterexamples -/

/-- Oracles on which the similarity call succeeds with a score of `0`
(below the threshold), retrieval succeeds, and the LLM call raises. -/
def failingLLMOracles : Oracles :=
  { calcSimilarity := fun _ _ => some 0
    getRelevantDocuments := fun _ => some ["ctx"]
    llmGenerate := fun _ => none }

/-- Oracles on which every external call succeeds and the LLM always
answers `" hintA "`. -/
def okOracles : Oracles :=
  { calcSimilarity := fun _ _ => some 0
    getRelevantDocuments := fun _ => some ["ctx"]
    llmGenerate := fun _ => some " hintA " }

/-- Oracles on which the similarity call succeeds with a score of `1`
(above the threshold). -/
def correctOracles : Oracles :=
  { calcSimilarity := fun _ _ => some 1
    getRelevantDocuments := fun _ => some []
    llmGenerate := fun _ => none }

/-- Oracles on which the similarity call itself raises. -/
def brokenSimOracles : Oracles :=
  { calcSimilarity := fun _ _ => none
    getRelevantDocuments := fun _ => some ["ctx"]
    llmGenerate := fun _ => some "h" }

/-- A progress record after two unsuccessful attempts. -/
def pTwo : LearningProgress :=
  { completed := false, attempts := 2, hints_given := ["old hint"] }

/-- A completed progress record. -/
def pDone : LearningProgress :=
  { completed := true, attempts := 2, hints_given := ["old hint"] }

/-! ## Helper lemmas -/

theorem recordAttempt_attempts (p : LearningProgress) (hint : String) :
    (recordAttempt p hint).attempts = p.attempts + 1 := by
  unfold recordAttempt
  by_cases h : hint ∈ p.hints_given <;> simp [h]

theorem recordAttempt_hints_new (p : LearningProgress) (hint : String)
    (h : hint ∉ p.hints_given) :
    (recordAttempt p hint).hints_given = p.hints_given ++ [hint] := by
  simp [recordAttempt, h]

theorem recordAttempt_hints_mem (p : LearningProgress) (hint : String)
    (h : hint ∈ p.hints_given) :
    (recordAttempt p hint).hints_given = p.hints_given := by
  simp [recordAttempt, h]

theorem recordAttempt_foldl (hs : List String) (p : LearningProgress)
    (hnew : ∀ x ∈ hs, x ∉ p.hints_given) (hnodup : hs.Nodup) :
    (hs.foldl recordAttempt p).attempts = p.attempts + hs.length ∧
    (hs.foldl recordAttempt p).hints_given = p.hints_given ++ hs := by
  induction hs generalizing p with
  | nil => simp
  | cons x xs ih =>
    have hx : x ∉ p.hints_given := hnew x (List.mem_cons_self x xs)
    have hstep_h : (recordAttempt p x).hints_given = p.hints_given ++ [x] :=
      recordAttempt_hints_new p x hx
    have hstep_a : (recordAttempt p x).attempts = p.attempts + 1 :=
      recordAttempt_attempts p x
    have hnew' : ∀ y ∈ xs, y ∉ (recordAttempt p x).hints_given := by
      intro y hy
      rw [hstep_h]
      simp only [List.mem_append, List.mem_singleton]
      rintro (hmem | rfl)
      · exact hnew y (List.mem_cons_of_mem x hy) hmem
      · exact (List.nodup_cons.mp hnodup).1 hy
    obtain ⟨iha, ihh⟩ := ih (recordAttempt p x) hnew' (List.nodup_cons.mp hnodup).2
    constructor
    · rw [List.foldl_cons, iha, hstep_a]
      simp [List.length_cons]
      omega
    · rw [List.foldl_cons, ihh, hstep_h]
      simp

theorem handle_correct_answer_progress (p : LearningProgress) :
    (handle_correct_answer p).2.attempts = p.attempts ∧
    (handle_correct_answer p).2.hints_given = p.hints_given ∧
    (p.completed = true → (handle_correct_answer p).2.completed = true) := by
  unfold handle_correct_answer
  by_cases h : p.completed <;> simp [h]

theorem generate_llm_response_progress (O : Oracles)
    (t c q ua ca : String) (p : LearningProgress) :
    (generate_llm_response O t c q ua ca p).2 = p ∨
    ∃ hint, hint ∉ p.hints_given ∧
      (generate_llm_response O t c q ua ca p).2 =
        { p with hints_given := p.hints_given ++ [hint] } := by
  unfold generate_llm_response
  cases hllm : O.llmGenerate (formatPrompt t c q ua p.attempts
      (String.intercalate ", " p.hints_given)) with
  | none => left; simp [hllm]
  | some txt =>
    by_cases hmem : pyStrip txt ∈ p.hints_given
    · left; simp [hllm, hmem]
    · right; exact ⟨pyStrip txt, hmem, by simp [hllm, hmem]⟩

theorem generate_response_correct_eq (O : Oracles) (q ca ua : String)
    (p : LearningProgress) (s : ℚ)
    (hsim : O.calcSimilarity ca ua = some s)
    (hgt : s > similarity_threshold) :
    generate_response O q ca ua p = handle_correct_answer p := by
  unfold generate_response
  simp [hsim, hgt]

theorem generate_response_incorrect_eq (O : Oracles) (q ca ua : String)
    (p : LearningProgress) (s : ℚ) (ctx : String)
    (hsim : O.calcSimilarity ca ua = some s)
    (hle : ¬ s > similarity_threshold)
    (hctx : get_enhanced_context O q = some ctx) :
    generate_response O q ca ua p =
      ((generate_llm_response O (get_dynamic_prompt_template p) ctx q ua ca p).1,
        { (generate_llm_response O (get_dynamic_prompt_template p) ctx q ua ca p).2 with
            attempts :=
              (generate_llm_response O (get_dynamic_prompt_template p) ctx q ua ca p).2.attempts + 1 }) := by
  unfold generate_response
  simp [hsim, hle, hctx]

theorem generate_llm_response_fail_eq (O : Oracles) (t c q ua ca : String)
    (p : LearningProgress)
    (hllm : O.llmGenerate (formatPrompt t c q ua p.attempts
      (String.intercalate ", " p.hints_given)) = none) :
    generate_llm_response O t c q ua ca p = (feedbackApology, p) := by
  unfold generate_llm_response
  simp [hllm]

theorem generate_llm_response_ok (O : Oracles) (t c q ua ca : String)
    (p : LearningProgress) (out : String)
    (hllm : O.llmGenerate (formatPrompt t c q ua p.attempts
      (String.intercalate ", " p.hints_given)) = some out) :
    (generate_llm_response O t c q ua ca p).1 =
      get_encouragement p.attempts ++ "\n\n" ++ pyStrip out ∧
    (generate_llm_response O t c q ua ca p).2.attempts = p.attempts ∧
    (generate_llm_response O t c q ua ca p).2.completed = p.completed := by
  unfold generate_llm_response
  by_cases hmem : pyStrip out ∈ p.hints_given <;>
    simp [hllm, hmem, format_response]

/-! ## The claims -/

/-- C8: on the incorrect-answer path the prompt template is selected from
`progress.attempts` before the increment, in three tiers — `attempts = 0`
gives the gentle first-attempt template, `1 ≤ attempts ≤ 2` the
more-specific-hints template, `attempts ≥ 3` the structured step-by-step
template — and the three templates are pairwise distinct, so a repeated
incorrect answer changes template exactly when `attempts` crosses 1 and
crosses 3. -/
theorem C8_template_tiers (p : LearningProgress) :
    (p.attempts = 0 → get_dynamic_prompt_template p = firstAttemptTemplate) ∧
    (1 ≤ p.attempts → p.attempts ≤ 2 →
      get_dynamic_prompt_template p = progressTemplate) ∧
    (3 ≤ p.attempts → get_dynamic_prompt_template p = strugglingTemplate) ∧
    firstAttemptTemplate ≠ progressTemplate ∧
    progressTemplate ≠ strugglingTemplate ∧
    firstAttemptTemplate ≠ strugglingTemplate := by
  refine ⟨?_, ?_, ?_, by decide, by decide, by decide⟩
  · intro h0
    simp [get_dynamic_prompt_template, h0]
  · intro h1 h2
    unfold get_dynamic_prompt_template
    rw [if_neg (by omega), if_pos (by omega)]
  · intro h3
    unfold get_dynamic_prompt_template
    rw [if_neg (by omega), if_neg (by omega)]

theorem C8_witness :
    (pTwo.attempts = 0 → get_dynamic_prompt_template pTwo = firstAttemptTemplate) ∧
    (1 ≤ pTwo.attempts → pTwo.attempts ≤ 2 →
      get_dynamic_prompt_template pTwo = progressTemplate) ∧
    (3 ≤ pTwo.attempts → get_dynamic_prompt_template pTwo = strugglingTemplate) ∧
    firstAttemptTemplate ≠ progressTemplate ∧
    progressTemplate ≠ strugglingTemplate ∧
    firstAttemptTemplate ≠ strugglingTemplate :=
  C8_template_tiers pTwo

/-- C9: `_get_encouragement` is a total function of the pre-increment
attempt count — 0..4 each map to their own fixed line, and every count
of 5 or more maps to the single generic "Keep persevering" line. -/
theorem C9_encouragement_table :
    get_encouragement 0 = "Let\x27s start exploring this together!" ∧
    get_encouragement 1 = "You\x27re making progress! Keep thinking about it." ∧
    get_encouragement 2 = "You\x27re getting closer! Consider these points:" ∧
    get_encouragement 3 = "Don\x27t give up! Here\x27s a different way to think about it:" ∧
    get_encouragement 4 = "You\x27re putting in great effort! Let\x27s break this down further:" ∧
    ∀ a, 5 ≤ a → get_encouragement a = "Keep persevering! Here\x27s some guidance:" := by
  refine ⟨rfl, rfl, rfl, rfl, rfl, ?_⟩
  intro a ha
  obtain ⟨n, rfl⟩ : ∃ n, a = n + 5 := ⟨a - 5, by omega⟩
  rfl

theorem C9_witness :
    get_encouragement 7 = "Keep persevering! Here\x27s some guidance:" :=
  C9_encouragement_table.2.2.2.2.2 7 (by decide)

/-- C10: a default-constructed `LearningProgress` has `completed = false`,
`attempts = 0` and an empty `hints_given`; `__post_init__` replaces the
`None` default by a fresh empty list for every construction, so
`hints_given` is never `None`. -/
theorem C10_default_construction :
    LearningProgress.default.completed = false ∧
    LearningProgress.default.attempts = 0 ∧
    LearningProgress.default.hints_given = [] ∧
    ∀ (c : Bool) (a : Nat), (mkLearningProgress c a none).hints_given = [] :=
  ⟨rfl, rfl, rfl, fun _ _ => rfl⟩

/-- C1 counterexample: with similarity 0 (below the threshold), a
successful retrieval and a failing hint generator, `generate_response`
does return the fixed apology string, but `attempts` IS incremented —
refuting the claim that the progress record is unchanged: the
`progress.attempts += 1` on line 100 of `src/core.py` runs even when
`_generate_llm_response` caught the LLM exception internally. -/
theorem C1_counterexample :
    (generate_response failingLLMOracles "q" "ca" "ua"
        LearningProgress.default).1 = feedbackApology ∧
    ¬ (generate_response failingLLMOracles "q" "ca" "ua"
        LearningProgress.default).2.attempts =
      LearningProgress.default.attempts := by
  decide

/-- C1 (amended): when the similarity is at or below the threshold,
retrieval succeeds and the hint generator fails, `generate_response`
returns the fixed apology string and leaves `hints_given` and
`completed` unchanged, but `attempts` is incremented by exactly 1. -/
theorem C1_hint_failure_behavior (O : Oracles) (q ca ua : String)
    (p : LearningProgress) (s : ℚ) (ctx : String)
    (hsim : O.calcSimilarity ca ua = some s)
    (hle : ¬ s > similarity_threshold)
    (hctx : get_enhanced_context O q = some ctx)
    (hllm : O.llmGenerate (formatPrompt (get_dynamic_prompt_template p) ctx
      q ua p.attempts (String.intercalate ", " p.hints_given)) = none) :
    (generate_response O q ca ua p).1 = feedbackApology ∧
    (generate_response O q ca ua p).2.attempts = p.attempts + 1 ∧
    (generate_response O q ca ua p).2.hints_given = p.hints_given ∧
    (generate_response O q ca ua p).2.completed = p.completed := by
  rw [generate_response_incorrect_eq O q ca ua p s ctx hsim hle hctx,
    generate_llm_response_fail_eq O (get_dynamic_prompt_template p) ctx
      q ua ca p hllm]
  simp

theorem C1_witness :
    (generate_response failingLLMOracles "q" "ca" "ua" pTwo).1 =
      feedbackApology ∧
    (generate_response failingLLMOracles "q" "ca" "ua" pTwo).2.attempts =
      pTwo.attempts + 1 ∧
    (generate_response failingLLMOracles "q" "ca" "ua" pTwo).2.hints_given =
      pTwo.hints_given ∧
    (generate_response failingLLMOracles "q" "ca" "ua" pTwo).2.completed =
      pTwo.completed :=
  C1_hint_failure_behavior failingLLMOracles "q" "ca" "ua" pTwo 0 "ctx"
    rfl (by decide) (by decide) rfl

/-- C2: on a similarity success with `completed = false`,
`generate_response` sets `completed`, leaves `attempts` and
`hints_given` unchanged, and returns the congratulatory message: the
"first try" wording when `attempts = 0`, and the wording reporting
`attempts + 1` as the human-facing attempt count when `attempts > 0`. -/
theorem C2_correct_answer_congratulation (O : Oracles) (q ca ua : String)
    (p : LearningProgress) (s : ℚ)
    (hnc : p.completed = false)
    (hsim : O.calcSimilarity ca ua = some s)
    (hgt : s > similarity_threshold) :
    (generate_response O q ca ua p).2.completed = true ∧
    (generate_response O q ca ua p).2.attempts = p.attempts ∧
    (generate_response O q ca ua p).2.hints_given = p.hints_given ∧
    (p.attempts = 0 →
      (generate_response O q ca ua p).1 =
        "🎉 Congratulations! Excellent work! You found the solution on your first try! Your understanding has grown through this process.") ∧
    (0 < p.attempts →
      (generate_response O q ca ua p).1 =
        "🎉 Congratulations! " ++
          ("Well done! You persevered and found the correct answer after " ++
            toString (p.attempts + 1) ++ " attempts.") ++
          " Your understanding has grown through this process.") := by
  rw [generate_response_correct_eq O q ca ua p s hsim hgt]
  unfold handle_correct_answer
  simp only [hnc, Bool.not_false, if_true]
  refine ⟨trivial, trivial, trivial, ?_, ?_⟩
  · intro h0
    simp [h0]
  · intro hpos
    rw [if_neg (by omega)]

theorem C2_witness :
    pTwo.completed = false ∧
    ((generate_response correctOracles "q" "ca" "ua" pTwo).2.completed = true ∧
     (generate_response correctOracles "q" "ca" "ua" pTwo).2.attempts =
       pTwo.attempts ∧
     (generate_response correctOracles "q" "ca" "ua" pTwo).2.hints_given =
       pTwo.hints_given ∧
     (generate_response correctOracles "q" "ca" "ua" pTwo).1 =
       "🎉 Congratulations! Well done! You persevered and found the correct answer after 3 attempts. Your understanding has grown through this process.") :=
  have h := C2_correct_answer_congratulation correctOracles "q" "ca" "ua"
    pTwo 1 rfl rfl (by decide)
  ⟨rfl, h.1, h.2.1, h.2.2.1, (h.2.2.2.2 (by decide)).trans (by decide)⟩

/-- C3: on a similarity at or below the threshold with successful
retrieval and hint generation, `attempts` increases by exactly 1 and the
returned text is exactly the encouragement selected from the
pre-increment attempt count, a blank line, and the generated
(stripped) hint — so it contains the hint and is prefixed by the
attempt-appropriate encouragement. -/
theorem C3_incorrect_answer_hint (O : Oracles) (q ca ua : String)
    (p : LearningProgress) (s : ℚ) (ctx out : String)
    (hsim : O.calcSimilarity ca ua = some s)
    (hle : ¬ s > similarity_threshold)
    (hctx : get_enhanced_context O q = some ctx)
    (hllm : O.llmGenerate (formatPrompt (get_dynamic_prompt_template p) ctx
      q ua p.attempts (String.intercalate ", " p.hints_given)) = some out) :
    (generate_response O q ca ua p).2.attempts = p.attempts + 1 ∧
    (generate_response O q ca ua p).1 =
      get_encouragement p.attempts ++ "\n\n" ++ pyStrip out := by
  rw [generate_response_incorrect_eq O q ca ua p s ctx hsim hle hctx]
  obtain ⟨h1, h2, h3⟩ := generate_llm_response_ok O
    (get_dynamic_prompt_template p) ctx q ua ca p out hllm
  exact ⟨by simp [h2], h1⟩

theorem C3_witness :
    (generate_response okOracles "q" "ca" "ua"
        LearningProgress.default).2.attempts =
      LearningProgress.default.attempts + 1 ∧
    (generate_response okOracles "q" "ca" "ua" LearningProgress.default).1 =
      get_encouragement LearningProgress.default.attempts ++ "\n\n" ++
        pyStrip " hintA " :=
  C3_incorrect_answer_hint okOracles "q" "ca" "ua" LearningProgress.default
    0 "ctx" " hintA " rfl (by decide) (by decide) rfl

/-- C4: a single `generate_response` call, on every branch, never
decreases `attempts`, never reverts `completed` from true to false, and
preserves the invariant that `hints_given` is no longer than
`attempts`. -/
theorem C4_progress_invariants (O : Oracles) (q ca ua : String)
    (p : LearningProgress)
    (hlen : p.hints_given.length ≤ p.attempts) :
    p.attempts ≤ (generate_response O q ca ua p).2.attempts ∧
    (p.completed = true → (generate_response O q ca ua p).2.completed = true) ∧
    (generate_response O q ca ua p).2.hints_given.length ≤
      (generate_response O q ca ua p).2.attempts := by
  cases hsim : O.calcSimilarity ca ua with
  | none =>
    unfold generate_response
    simp [hsim, hlen]
  | some s =>
    by_cases hgt : s > similarity_threshold
    · rw [generate_response_correct_eq O q ca ua p s hsim hgt]
      obtain ⟨ha, hh, hc⟩ := handle_correct_answer_progress p
      exact ⟨le_of_eq ha.symm, hc, by rw [ha, hh]; exact hlen⟩
    · cases hctx : get_enhanced_context O q with
      | none =>
        unfold generate_response
        simp [hsim, hgt, hctx, hlen]
      | some ctx =>
        rw [generate_response_incorrect_eq O q ca ua p s ctx hsim hgt hctx]
        rcases generate_llm_response_progress O
            (get_dynamic_prompt_template p) ctx q ua ca p with
          h | ⟨hint, hmem, h⟩
        · rw [h]
          refine ⟨by simp, by simp, ?_⟩
          simp only
          omega
        · rw [h]
          refine ⟨by simp, by simp, ?_⟩
          simp only [List.length_append, List.length_singleton]
          omega

theorem C4_witness :
    pDone.hints_given.length ≤ pDone.attempts ∧
    (pDone.attempts ≤ (generate_response okOracles "q" "ca" "ua"
        pDone).2.attempts ∧
     (pDone.completed = true →
       (generate_response okOracles "q" "ca" "ua" pDone).2.completed = true) ∧
     (generate_response okOracles "q" "ca" "ua" pDone).2.hints_given.length ≤
       (generate_response okOracles "q" "ca" "ua" pDone).2.attempts) :=
  ⟨by decide, C4_progress_invariants okOracles "q" "ca" "ua" pDone (by decide)⟩

/-- C5: when the similarity computation itself fails, or when the
context retrieval fails on the incorrect-answer path (the exceptions
that reach the top-level `except` of `generate_response`), the fixed
fallback message is returned and the progress record is exactly the one
passed in. -/
theorem C5_unexpected_error_fallback (O : Oracles) (q ca ua : String)
    (p : LearningProgress)
    (h : O.calcSimilarity ca ua = none ∨
      ∃ s, O.calcSimilarity ca ua = some s ∧ ¬ s > similarity_threshold ∧
        get_enhanced_context O q = none) :
    (generate_response O q ca ua p).1 = processingFallback ∧
    (generate_response O q ca ua p).2 = p := by
  unfold generate_response
  rcases h with hsim | ⟨s, hsim, hle, hctx⟩
  · simp [hsim]
  · simp [hsim, hle, hctx]

theorem C5_witness :
    (generate_response brokenSimOracles "q" "ca" "ua" pTwo).1 =
      processingFallback ∧
    (generate_response brokenSimOracles "q" "ca" "ua" pTwo).2 = pTwo :=
  C5_unexpected_error_fallback brokenSimOracles "q" "ca" "ua" pTwo
    (Or.inl rfl)

/-- C6: a similarity success on an already-completed progress record
returns the bare placeholder string "." and leaves the progress record
exactly as it was — no renewed congratulation, no attempt increment. -/
theorem C6_already_completed_noop (O : Oracles) (q ca ua : String)
    (p : LearningProgress) (s : ℚ)
    (hc : p.completed = true)
    (hsim : O.calcSimilarity ca ua = some s)
    (hgt : s > similarity_threshold) :
    (generate_response O q ca ua p).1 = "." ∧
    (generate_response O q ca ua p).2 = p := by
  rw [generate_response_correct_eq O q ca ua p s hsim hgt]
  unfold handle_correct_answer
  simp [hc]

theorem C6_witness :
    (generate_response correctOracles "q" "ca" "ua" pDone).1 = "." ∧
    (generate_response correctOracles "q" "ca" "ua" pDone).2 = pDone :=
  C6_already_completed_noop correctOracles "q" "ca" "ua" pDone 1
    rfl rfl (by decide)

/-- C7: the progress-record effect of one successful incorrect-answer
turn (`recordAttempt`) keeps `hints_given` append-only in insertion
order with exact-text duplicates suppressed: recording N distinct fresh
hints adds N to `attempts` and appends exactly those N hints in order;
recording an already-present hint increments `attempts` but leaves
`hints_given` unchanged, so recording the same hint twice has the same
effect on `hints_given` as recording it once. -/
theorem C7_hints_append_only (p : LearningProgress) (hs : List String)
    (h : String)
    (hnew : ∀ x ∈ hs, x ∉ p.hints_given) (hnodup : hs.Nodup) :
    (hs.foldl recordAttempt p).attempts = p.attempts + hs.length ∧
    (hs.foldl recordAttempt p).hints_given = p.hints_given ++ hs ∧
    ((recordAttempt p h).hints_given = p.hints_given ∨
      (recordAttempt p h).hints_given = p.hints_given ++ [h]) ∧
    (h ∈ p.hints_given →
      (recordAttempt p h).attempts = p.attempts + 1 ∧
      (recordAttempt p h).hints_given = p.hints_given) ∧
    (recordAttempt (recordAttempt p h) h).hints_given =
      (recordAttempt p h).hints_given := by
  obtain ⟨ha, hh⟩ := recordAttempt_foldl hs p hnew hnodup
  refine ⟨ha, hh, ?_, ?_, ?_⟩
  · by_cases hm : h ∈ p.hints_given
    · exact Or.inl (recordAttempt_hints_mem p h hm)
    · exact Or.inr (recordAttempt_hints_new p h hm)
  · intro hm
    exact ⟨recordAttempt_attempts p h, recordAttempt_hints_mem p h hm⟩
  · apply recordAttempt_hints_mem
    by_cases hm : h ∈ p.hints_given
    · rw [recordAttempt_hints_mem p h hm]
      exact hm
    · rw [recordAttempt_hints_new p h hm]
      simp

theorem C7_witness :
    ((["h1", "h2"].foldl recordAttempt LearningProgress.default).attempts =
      LearningProgress.default.attempts + ["h1", "h2"].length ∧
    (["h1", "h2"].foldl recordAttempt LearningProgress.default).hints_given =
      LearningProgress.default.hints_given ++ ["h1", "h2"] ∧
    ((recordAttempt LearningProgress.default "h1").hints_given =
        LearningProgress.default.hints_given ∨
      (recordAttempt LearningProgress.default "h1").hints_given =
        LearningProgress.default.hints_given ++ ["h1"]) ∧
    ("h1" ∈ LearningProgress.default.hints_given →
      (recordAttempt LearningProgress.default "h1").attempts =
        LearningProgress.default.attempts + 1 ∧
      (recordAttempt LearningProgress.default "h1").hints_given =
        LearningProgress.default.hints_given) ∧
    (recordAttempt (recordAttempt LearningProgress.default "h1")
        "h1").hints_given =
      (recordAttempt LearningProgress.default "h1").hints_given) :=
  C7_hints_append_only LearningProgress.default ["h1", "h2"] "h1"
    (by decide) (by decide)
